import Mathlib

set_option autoImplicit false

/-
Verification of the cart-to-order checkout workflow of the DEPI e-commerce
storefront.

The checkout orchestrator is `CheckoutPage.onSubmit` in
src/frontend/src/pages/ProductDetailPage.tsx (second document, lines 306-370);
the data model comes from the service API clients:
the cart client (CartItem/Cart/CheckoutResponse, src/unnamed/part_004),
the order client (OrderItem/CreateOrderRequest/Order, src/unnamed/part_003),
the auth client (User, src/unnamed/part_002); the cart store actions come
from the zustand store (second document of src/frontend/src/utils/helpers.ts,
whose clearCart sets the store cart to null on success); the submit-button
disabling comes from the Button component (src/unnamed/part_006).

Monetary amounts (JS `number` fields in the source) are modelled as integers
in cents. External HTTP collaborators (payment gateway, order recorder,
cart-clearing endpoint) are modelled as oracles returning `Except`: a
rejected promise in the source is an `Except.error`, caught by the single
`catch` block of `onSubmit`.
-/

namespace DepiCheckout

/-- CartItem as declared in the cart service API client (src/unnamed/part_004). -/
structure CartItem where
  id : String
  cart_id : String
  product_id : String
  quantity : Nat
  price : Int
  total_price : Int
  created_at : String
  updated_at : String
  product_title : Option String
  product_image : Option String
  product_in_stock : Option Bool
  deriving DecidableEq

/-- Cart as declared in the cart service API client (src/unnamed/part_004). -/
structure Cart where
  id : String
  user_id : String
  items : List CartItem
  total_items : Nat
  subtotal : Int
  created_at : String
  updated_at : String
  deriving DecidableEq

/-- User as declared in the auth service API client (src/unnamed/part_002). -/
structure User where
  id : String
  email : String
  full_name : String
  profile_picture_url : Option String
  created_at : String
  deriving DecidableEq

/-- The paymentMethod field of CheckoutFormData: 'card' | 'paypal'. -/
inductive PaymentMethod
  | card
  | paypal
  deriving DecidableEq

/-- CheckoutFormData as declared in CheckoutPage (ProductDetailPage.tsx lines 238-246). -/
structure CheckoutFormData where
  fullName : String
  email : String
  address : String
  city : String
  zipCode : String
  country : String
  paymentMethod : PaymentMethod
  deriving DecidableEq

/-- The metadata object passed to createPaymentIntent (lines 323-326). -/
structure PaymentMetadata where
  shipping_address : String
  customer_email : String
  deriving DecidableEq

/-- The request body of paymentService.createPaymentIntent (lines 318-327). -/
structure CreatePaymentIntentRequest where
  amount : Int
  currency : String
  cart_id : String
  payment_method : PaymentMethod
  metadata : PaymentMetadata
  deriving DecidableEq

/-- The payment intent returned by the payment service; onSubmit only uses its id. -/
structure PaymentIntent where
  id : String
  deriving DecidableEq

/-- The request body of paymentService.confirmPayment (lines 330-333). -/
structure ConfirmPaymentRequest where
  payment_intent_id : String
  payment_method_id : String
  deriving DecidableEq

/-- OrderItem as declared in the order service API client (src/unnamed/part_003). -/
structure OrderItem where
  product_id : String
  product_title : String
  product_image : Option String
  quantity : Nat
  price : Int
  deriving DecidableEq

/-- The shipping_address object built in onSubmit (lines 347-354). -/
structure ShippingAddress where
  fullName : String
  email : String
  address : String
  city : String
  zipCode : String
  country : String
  deriving DecidableEq

/-- CreateOrderRequest as declared in the order service API client (src/unnamed/part_003). -/
structure CreateOrderRequest where
  user_id : String
  items : List OrderItem
  total_amount : Int
  shipping_address : ShippingAddress
  payment_intent_id : Option String
  deriving DecidableEq

/-- Order as declared in the order service API client (src/unnamed/part_003). -/
structure Order where
  id : String
  user_id : String
  total_amount : Int
  status : String
  created_at : String
  items : List OrderItem
  deriving DecidableEq

/-- Failure modes of the payment collaborator (spec section 4.3 taxonomy). -/
inductive PaymentError
  | amountMismatch
  | declined
  | gatewayError
  deriving DecidableEq

/-- Failure of the order recorder call. -/
inductive OrderError
  | creationFailed
  deriving DecidableEq

/-- Failure of the cart-clearing call. -/
inductive CartApiError
  | clearFailed
  deriving DecidableEq

/-- The step state of CheckoutPage: 'shipping' | 'payment' | 'success' (line 259). -/
inductive Step
  | shipping
  | payment
  | success
  deriving DecidableEq

/-- The component state of CheckoutPage relevant to onSubmit: the current step,
the cart from the cart store, the user from the auth store, and the processing
flag. -/
structure PageState where
  step : Step
  cart : Option Cart
  user : Option User
  processing : Bool
  deriving DecidableEq

/-- One outbound service call made during a submission, with its request body.
prepareCheckout is the cart client's checkout-preparation call
(src/unnamed/part_004, CartService.prepareCheckout); it is listed here so that
its absence from every onSubmit trace can be stated. -/
inductive CallEvent
  | createIntent (req : CreatePaymentIntentRequest)
  | confirmPayment (req : ConfirmPaymentRequest)
  | createOrder (req : CreateOrderRequest)
  | clearCart
  | prepareCheckout
  deriving DecidableEq

/-- The user-visible outcome of one onSubmit invocation: advancing from the
shipping step to the payment step, the success toast plus success screen
(lines 361-362), or the generic failure toast of the catch block (line 366). -/
inductive Outcome
  | advancedToPayment
  | toastSuccess
  | toastPaymentFailed
  deriving DecidableEq

/-- Result of one onSubmit invocation: the final component state, the ordered
list of outbound service calls made, and the user-visible outcome. -/
structure SubmitResult where
  state : PageState
  trace : List CallEvent
  outcome : Outcome
  deriving DecidableEq

/-- The external collaborators reached from onSubmit, as response oracles.
An `Except.error` stands for a rejected promise (declined or errored payment,
failed order creation, failed cart clear), which the source's catch block
swallows into the generic failure toast. -/
structure Gateway where
  createIntent : CreatePaymentIntentRequest → Except PaymentError PaymentIntent
  confirmPayment : ConfirmPaymentRequest → Except PaymentError Unit
  createOrder : CreateOrderRequest → Except OrderError Order
  clearCart : Unit → Except CartApiError Unit

/-- The order-item snapshot built from a cart line in onSubmit (lines 339-345):
product_title falls back to 'Unknown Product' and product_image to undefined
via JS truthiness (null and empty string are both falsy); quantity and price
are copied from the cart item. -/
def toOrderItem (it : CartItem) : OrderItem :=
  { product_id := it.product_id
    product_title :=
      match it.product_title with
      | some t => if t = "" then "Unknown Product" else t
      | none => "Unknown Product"
    product_image :=
      match it.product_image with
      | some s => if s = "" then none else some s
      | none => none
    quantity := it.quantity
    price := it.price }

/-- The shipping_address object of the order request (lines 347-354). -/
def shippingAddressOf (data : CheckoutFormData) : ShippingAddress :=
  { fullName := data.fullName
    email := data.email
    address := data.address
    city := data.city
    zipCode := data.zipCode
    country := data.country }

/-- The createPaymentIntent request built in onSubmit (lines 315-327):
amount is `Number(cart?.subtotal) || 0`, i.e. the subtotal of the cart in
scope (the cart is non-null on this path). -/
def intentReqOf (c : Cart) (data : CheckoutFormData) : CreatePaymentIntentRequest :=
  { amount := c.subtotal
    currency := "USD"
    cart_id := c.id
    payment_method := data.paymentMethod
    metadata :=
      { shipping_address :=
          data.address ++ ", " ++ data.city ++ ", " ++ data.zipCode ++ ", " ++ data.country
        customer_email := data.email } }

/-- The confirmPayment request built in onSubmit (lines 330-333), with the
mock payment method id. -/
def confirmReqOf (intent : PaymentIntent) : ConfirmPaymentRequest :=
  { payment_intent_id := intent.id
    payment_method_id := "pm_card_visa" }

/-- The createOrder request built in onSubmit (lines 337-356). -/
def orderReqOf (u : User) (c : Cart) (intent : PaymentIntent) (data : CheckoutFormData) :
    CreateOrderRequest :=
  { user_id := u.id
    items := c.items.map toOrderItem
    total_amount := c.subtotal
    shipping_address := shippingAddressOf data
    payment_intent_id := some intent.id }

/-- Modelled from the spec: the durable Order record persisted by the Order
Recorder (the order service backend is not under src/; the part_003 client
only declares the POST request and a response projection without the linked
intent id): order id, owning user, copied item snapshot, total amount, linked
payment intent id, status (spec section 3). -/
structure RecordedOrder where
  id : String
  user_id : String
  items : List OrderItem
  total_amount : Int
  payment_intent_id : Option String
  status : String
  deriving DecidableEq

/-- Modelled from the spec: the Order Recorder persists the order by copying
the request's item snapshot, total amount and payment intent id (spec
sections 3 and 6: createOrder(userId, items, total, paymentIntentId)). -/
def recordOrder (oid : String) (req : CreateOrderRequest) : RecordedOrder :=
  { id := oid,
    user_id := req.user_id,
    items := req.items,
    total_amount := req.total_amount,
    payment_intent_id := req.payment_intent_id,
    status := "created" }

/-- The onSubmit handler of CheckoutPage (ProductDetailPage.tsx lines 306-370).
On the shipping step it only advances to the payment step. Otherwise it
creates a payment intent for the cart subtotal, confirms it, creates the
order only under the `if (user && cart)` guard (line 336; cart is already
non-null here, so the guard reduces to the user being present), clears the
cart and reports success. The cart store's clearCart action (second document
of src/frontend/src/utils/helpers.ts, lines 170-179) sets the store cart to
null after the API call succeeds, so the post-success page cart is none; when
the call fails it rethrows with the cart unchanged. Any rejection along the
way falls into the single
catch block, which shows the generic payment-failure toast and leaves the
cart as it was. A missing cart on the payment step makes `cart!.id` throw,
which the same catch block swallows before any service call. -/
def onSubmit (s : PageState) (data : CheckoutFormData) (g : Gateway) : SubmitResult :=
  if s.step = Step.shipping then
    { state := { s with step := Step.payment }, trace := [], outcome := Outcome.advancedToPayment }
  else
    match s.cart with
    | none =>
        { state := { s with processing := false },
          trace := [],
          outcome := Outcome.toastPaymentFailed }
    | some c =>
        match g.createIntent (intentReqOf c data) with
        | Except.error _ =>
            { state := { s with processing := false },
              trace := [CallEvent.createIntent (intentReqOf c data)],
              outcome := Outcome.toastPaymentFailed }
        | Except.ok intent =>
            match g.confirmPayment (confirmReqOf intent) with
            | Except.error _ =>
                { state := { s with processing := false },
                  trace := [CallEvent.createIntent (intentReqOf c data),
                            CallEvent.confirmPayment (confirmReqOf intent)],
                  outcome := Outcome.toastPaymentFailed }
            | Except.ok _ =>
                match s.user with
                | some u =>
                    match g.createOrder (orderReqOf u c intent data) with
                    | Except.error _ =>
                        { state := { s with processing := false },
                          trace := [CallEvent.createIntent (intentReqOf c data),
                                    CallEvent.confirmPayment (confirmReqOf intent),
                                    CallEvent.createOrder (orderReqOf u c intent data)],
                          outcome := Outcome.toastPaymentFailed }
                    | Except.ok _ =>
                        match g.clearCart () with
                        | Except.error _ =>
                            { state := { s with processing := false },
                              trace := [CallEvent.createIntent (intentReqOf c data),
                                        CallEvent.confirmPayment (confirmReqOf intent),
                                        CallEvent.createOrder (orderReqOf u c intent data),
                                        CallEvent.clearCart],
                              outcome := Outcome.toastPaymentFailed }
                        | Except.ok _ =>
                            { state :=
                                { s with
                                  cart := none,
                                  step := Step.success,
                                  processing := false },
                              trace := [CallEvent.createIntent (intentReqOf c data),
                                        CallEvent.confirmPayment (confirmReqOf intent),
                                        CallEvent.createOrder (orderReqOf u c intent data),
                                        CallEvent.clearCart],
                              outcome := Outcome.toastSuccess }
                | none =>
                    match g.clearCart () with
                    | Except.error _ =>
                        { state := { s with processing := false },
                          trace := [CallEvent.createIntent (intentReqOf c data),
                                    CallEvent.confirmPayment (confirmReqOf intent),
                                    CallEvent.clearCart],
                          outcome := Outcome.toastPaymentFailed }
                    | Except.ok _ =>
                        { state :=
                            { s with
                              cart := none,
                              step := Step.success,
                              processing := false },
                          trace := [CallEvent.createIntent (intentReqOf c data),
                                    CallEvent.confirmPayment (confirmReqOf intent),
                                    CallEvent.clearCart],
                          outcome := Outcome.toastSuccess }

/-- What CheckoutPage renders (lines 270-304, 372-385, 387-553, in source
order): the spinner while loading or initializing, the error screen, the
empty-cart screen when the cart has no items and the step is not 'success',
the success screen, and otherwise the checkout form carrying onSubmit. -/
inductive RenderResult
  | loadingScreen
  | errorScreen
  | emptyCartScreen
  | successScreen
  | checkoutForm
  deriving DecidableEq

/-- The emptiness test of line 291: `!cart || !cart.items || cart.items.length === 0`. -/
def cartIsEmpty (oc : Option Cart) : Bool :=
  match oc with
  | none => true
  | some c => c.items.isEmpty

/-- The render function of CheckoutPage, guards in source order. -/
def renderCheckoutPage (isLoading isInitializing : Bool) (err : Option String)
    (cart : Option Cart) (step : Step) : RenderResult :=
  if isLoading || isInitializing then RenderResult.loadingScreen
  else if err.isSome then RenderResult.errorScreen
  else if cartIsEmpty cart ∧ step ≠ Step.success then RenderResult.emptyCartScreen
  else if step = Step.success then RenderResult.successScreen
  else RenderResult.checkoutForm

/-- Whether the render result carries the checkout form; only the form wires
the submit handler, so no onSubmit call can originate from any other render. -/
def rendersCheckoutForm (r : RenderResult) : Bool :=
  match r with
  | RenderResult.checkoutForm => true
  | _ => false

/-- The submit button of the checkout form passes isLoading={processing}
(line 501) and the Button component disables itself when isLoading is set
(src/unnamed/part_006, `disabled={disabled || isLoading}`), so within one page
instance the submit control is disabled exactly while processing. -/
def submitButtonDisabled (s : PageState) : Bool :=
  s.processing

/-- The browser sessionStorage keys read by the auth service client
(src/unnamed/part_002): the access token and the serialized user. -/
structure SessionStore where
  access_token : Option String
  user_json : Option String
  deriving DecidableEq

/-- isAuthenticated from the auth service client: truthiness of the stored
access token. -/
def isAuthenticatedOf (st : SessionStore) : Bool :=
  st.access_token.isSome

/-- getStoredUser from the auth service client: parse the stored user JSON if
present, null otherwise (a parse failure also yields null). The JSON parser is
abstracted as a parameter; when no user string is stored it is never consulted. -/
def storedUserOf (parse : String → Option User) (st : SessionStore) : Option User :=
  st.user_json.bind parse

namespace CartModel

/-- Modelled from the spec: the Catalog Lookup collaborator's getProduct
result (spec section 6: price, stock count, active flag), extended with the
product metadata (title, image) that the cart service copies onto cart lines
(part_004 CartItem carries product_title/product_image/product_in_stock). -/
structure CatalogProduct where
  title : String
  price : Int
  stock : Nat
  is_active : Bool
  image : Option String
  deriving DecidableEq

/-- Modelled from the spec: the cart service error taxonomy for mutations
(spec section 7). -/
inductive CartError
  | invalidQuantity
  | productUnavailable
  | insufficientStock
  deriving DecidableEq

/-- Line total: quantity times unit price snapshot (spec section 3, CartItem). -/
def lineTotal (q : Nat) (p : Int) : Int :=
  (q : Int) * p

/-- The cart subtotal derived from its lines: sum of quantity times unit
price snapshot over all items (spec section 8). -/
def derivedSubtotal (items : List CartItem) : Int :=
  (items.map fun it => lineTotal it.quantity it.price).sum

/-- Modelled from the spec: after every mutation the cart service rewrites the
item list and recomputes total_items and subtotal from the lines. -/
def recompute (c : Cart) (items : List CartItem) : Cart :=
  { c with items := items,
           total_items := (items.map CartItem.quantity).sum,
           subtotal := derivedSubtotal items }

/-- Whether a cart line is the line of the given product id. -/
def matchesProduct (pid : String) (it : CartItem) : Bool :=
  it.product_id == pid

/-- The per-line update applied when addItem merges a quantity onto an
existing line: the quantity is summed, the line total rederived, and the
price snapshot left untouched. -/
def mergeLine (pid : String) (qty : Nat) (it : CartItem) : CartItem :=
  if matchesProduct pid it then
    { it with quantity := it.quantity + qty,
              total_price := lineTotal (it.quantity + qty) it.price }
  else it

/-- Modelled from the spec: the cart service addItem (the backend is not under
src/; part_004 only carries the POST /api/cart/items client). Quantity below 1
fails with InvalidQuantity; an inactive product fails with ProductUnavailable;
if the product already has a line, the quantity is summed onto that line and
its price snapshot is left untouched; otherwise a new line is appended with
the current catalog price as snapshot (spec section 4.1). -/
def addItem (cat : CatalogProduct) (c : Cart) (pid : String) (qty : Nat) :
    Except CartError Cart :=
  if qty < 1 then Except.error CartError.invalidQuantity
  else if cat.is_active = false then Except.error CartError.productUnavailable
  else if c.items.any (matchesProduct pid) then
    Except.ok (recompute c (c.items.map (mergeLine pid qty)))
  else
    Except.ok (recompute c (c.items ++
      [{ id := pid,
         cart_id := c.id,
         product_id := pid,
         quantity := qty,
         price := cat.price,
         total_price := lineTotal qty cat.price,
         created_at := "",
         updated_at := "",
         product_title := some cat.title,
         product_image := cat.image,
         product_in_stock := some (decide (0 < cat.stock)) }]))

/-- Modelled from the spec: the cart service updateItem. Quantity 0 removes
the line; a quantity above live stock fails with InsufficientStock; otherwise
the quantity is set and the snapshot kept (spec section 4.1). -/
def updateItem (cat : CatalogProduct) (c : Cart) (pid : String) (qty : Nat) :
    Except CartError Cart :=
  if qty = 0 then Except.ok (recompute c (c.items.filter fun it => !(matchesProduct pid it)))
  else if cat.stock < qty then Except.error CartError.insufficientStock
  else Except.ok (recompute c (c.items.map fun it =>
    if matchesProduct pid it then
      { it with quantity := qty, total_price := lineTotal qty it.price }
    else it))

/-- Modelled from the spec: the cart service removeItem, idempotent
(spec section 4.1). -/
def removeItem (c : Cart) (pid : String) : Cart :=
  recompute c (c.items.filter fun it => !(matchesProduct pid it))

/-- Modelled from the spec: the cart service clearCart deletes all items
(spec section 4.1). -/
def clearCart (c : Cart) : Cart :=
  recompute c []

/-- Modelled from the spec: the empty cart lazily created by getCart
(spec section 3: zero items, zero subtotal). -/
def emptyCartFor (cartId userId : String) : Cart :=
  { id := cartId
    user_id := userId
    items := []
    total_items := 0
    subtotal := 0
    created_at := ""
    updated_at := "" }

end CartModel

/-- Modelled from the spec: the payment service createIntent (the service is
not under src/) re-derives the cart subtotal from the cart's lines at call
time and fails with AmountMismatch when the supplied amount differs; on a
match it creates a fresh intent (spec section 4.3). -/
def createIntentChecked (serverItems : List CartItem) (req : CreatePaymentIntentRequest)
    (freshId : String) : Except PaymentError PaymentIntent :=
  if req.amount = CartModel.derivedSubtotal serverItems then Except.ok { id := freshId }
  else Except.error PaymentError.amountMismatch

/-- Whether a call event is an order-recorder call. -/
def isOrderCall (e : CallEvent) : Bool :=
  match e with
  | CallEvent.createOrder _ => true
  | _ => false

/-- Whether a trace contains an order-recorder call. -/
def mentionsOrderCall (tr : List CallEvent) : Bool :=
  tr.any isOrderCall

/-- Number of order-recorder calls in a trace. -/
def countOrderCalls (tr : List CallEvent) : Nat :=
  tr.countP isOrderCall

/-- Whether a call event is a checkout-preparation call. -/
def isPrepareCall (e : CallEvent) : Bool :=
  match e with
  | CallEvent.prepareCheckout => true
  | _ => false

/-- Whether a trace contains a checkout-preparation call. -/
def mentionsPrepareCall (tr : List CallEvent) : Bool :=
  tr.any isPrepareCall

/-
Test fixtures used by the claim theorems, their witnesses and the
counterexamples below.
-/

/-- A cart line fixture. -/
def demoItem (cartId pid : String) (qty : Nat) (price : Int) (title : String)
    (inStock : Option Bool) : CartItem :=
  { id := pid, cart_id := cartId, product_id := pid, quantity := qty, price := price,
    total_price := (qty : Int) * price, created_at := "", updated_at := "",
    product_title := some title, product_image := none, product_in_stock := inStock }

/-- A cart fixture whose totals agree with its lines. -/
def demoCart (cid uid : String) (items : List CartItem) : Cart :=
  { id := cid, user_id := uid, items := items,
    total_items := (items.map CartItem.quantity).sum,
    subtotal := CartModel.derivedSubtotal items,
    created_at := "", updated_at := "" }

/-- A user fixture. -/
def demoUser (uid : String) : User :=
  { id := uid, email := "user@example.com", full_name := "Test User",
    profile_picture_url := none, created_at := "" }

/-- A filled checkout form fixture. -/
def demoForm : CheckoutFormData :=
  { fullName := "John Doe", email := "john@example.com", address := "123 Main St",
    city := "New York", zipCode := "10001", country := "United States",
    paymentMethod := PaymentMethod.card }

/-- A gateway oracle on which every external call succeeds. -/
def gatewayAllOk (intentId : String) : Gateway :=
  { createIntent := fun _ => Except.ok { id := intentId },
    confirmPayment := fun _ => Except.ok (),
    createOrder := fun r => Except.ok
      { id := "ord_1", user_id := r.user_id, total_amount := r.total_amount,
        status := "created", created_at := "", items := r.items },
    clearCart := fun _ => Except.ok () }

/-- A gateway oracle on which payment confirmation is declined. -/
def gatewayDeclining (intentId : String) : Gateway :=
  { gatewayAllOk intentId with confirmPayment := fun _ => Except.error PaymentError.declined }

/-- A gateway oracle on which the order-recorder call fails after a
successful payment confirmation. -/
def gatewayOrderFailing (intentId : String) : Gateway :=
  { gatewayAllOk intentId with createOrder := fun _ => Except.error OrderError.creationFailed }

/-- Cart used for the C2 run: one line P1 x 2 at 10.00. -/
def cartC2 : Cart := demoCart "cart-2" "u-2" [demoItem "cart-2" "P1" 2 1000 "Product One" (some true)]

/-- Page state for the C2 run: payment step, cart and user present. -/
def stateC2 : PageState :=
  { step := Step.payment, cart := some cartC2, user := some (demoUser "u-2"), processing := false }

/-- Page state after the failed C2 submission. -/
def stateC2after : PageState := (onSubmit stateC2 demoForm (gatewayOrderFailing "pi_2")).state

/-- C2: on a run in which payment is confirmed and the order-recorder call then
fails, the code makes exactly one order-recorder attempt (no retry), reports
the generic payment failure instead of escalating, keeps the cart, and a
subsequent submission re-runs createPaymentIntent from scratch (payment is
re-executed) rather than retrying only the order call. This exhibits the
divergence from the claim on a concrete failing input. -/
theorem claim_C2 :
    (onSubmit stateC2 demoForm (gatewayOrderFailing "pi_2")).outcome
        = Outcome.toastPaymentFailed ∧
    countOrderCalls (onSubmit stateC2 demoForm (gatewayOrderFailing "pi_2")).trace = 1 ∧
    stateC2after.step = Step.payment ∧
    stateC2after.cart = some cartC2 ∧
    (onSubmit stateC2after demoForm (gatewayOrderFailing "pi_2")).trace =
      [CallEvent.createIntent (intentReqOf cartC2 demoForm),
       CallEvent.confirmPayment (confirmReqOf { id := "pi_2" }),
       CallEvent.createOrder (orderReqOf (demoUser "u-2") cartC2 { id := "pi_2" } demoForm)] := by
  refine ⟨rfl, rfl, rfl, rfl, rfl⟩

/-- Cart used for the C9 run. -/
def cartC9 : Cart := demoCart "cart-9" "u-9" [demoItem "cart-9" "P1" 1 2500 "Product One" (some true)]

/-- First checkout-page instance over cartC9, mid-flight (processing). -/
def stateC9A : PageState :=
  { step := Step.payment, cart := some cartC9, user := some (demoUser "u-9"), processing := true }

/-- Second, concurrent checkout-page instance over the same cart (for example
a second browser tab), not processing. -/
def stateC9B : PageState :=
  { step := Step.payment, cart := some cartC9, user := some (demoUser "u-9"), processing := false }

/-- C9: there is no per-cart checkout lock and no CheckoutInProgress condition
anywhere in the code: while instance A over cartC9 is mid-flight (its only
guard being its own disabled submit button), a concurrent submission from
instance B over the same cart is accepted, runs the full payment and order
sequence and reports success instead of being rejected. -/
theorem claim_C9 :
    stateC9A.cart = stateC9B.cart ∧
    submitButtonDisabled stateC9A = true ∧
    (onSubmit stateC9B demoForm (gatewayAllOk "pi_9")).outcome = Outcome.toastSuccess ∧
    (onSubmit stateC9B demoForm (gatewayAllOk "pi_9")).trace =
      [CallEvent.createIntent (intentReqOf cartC9 demoForm),
       CallEvent.confirmPayment (confirmReqOf { id := "pi_9" }),
       CallEvent.createOrder (orderReqOf (demoUser "u-9") cartC9 { id := "pi_9" } demoForm),
       CallEvent.clearCart] := by
  refine ⟨rfl, rfl, rfl, rfl⟩

/-- C4: a checkout attempt on a cart with zero items is stopped by the
empty-cart guard of CheckoutPage (line 291): the page renders the EmptyCart
screen instead of the checkout form, so no submission can happen and no
payment intent, order or cart mutation occurs. -/
theorem claim_C4 (cart : Option Cart) (step : Step)
    (hempty : cartIsEmpty cart = true) (hstep : step ≠ Step.success) :
    renderCheckoutPage false false none cart step = RenderResult.emptyCartScreen ∧
    rendersCheckoutForm (renderCheckoutPage false false none cart step) = false := by
  have h : renderCheckoutPage false false none cart step = RenderResult.emptyCartScreen := by
    simp [renderCheckoutPage, hempty, hstep]
  exact ⟨h, by rw [h]; rfl⟩

/-- C4 witness: the guard fires on a concrete empty cart at the shipping step. -/
theorem claim_C4_witness :
    renderCheckoutPage false false none (some (CartModel.emptyCartFor "c0" "u0")) Step.shipping
        = RenderResult.emptyCartScreen ∧
    rendersCheckoutForm (renderCheckoutPage false false none
        (some (CartModel.emptyCartFor "c0" "u0")) Step.shipping) = false :=
  claim_C4 (some (CartModel.emptyCartFor "c0" "u0")) Step.shipping (by decide) (by decide)

/-- Cart used for the C10 run: non-empty, one line P1 x 2 at 10.00. -/
def cartC10 : Cart := demoCart "cart-10" "u-10" [demoItem "cart-10" "P1" 2 1000 "Product One" (some true)]

/-- Page state for the C10 run: payment step, non-empty cart, user unset. -/
def stateC10 : PageState :=
  { step := Step.payment, cart := some cartC10, user := none, processing := false }

/-- Session storage exhibiting the reachability of stateC10: an access token is
present (so isAuthenticated is true and the checkout route's ProtectedRoute
passes) while no user object is stored (so the auth store's user is null). -/
def storeC10 : SessionStore := { access_token := some "jwt-token", user_json := none }

/-- C10: with the user value unset at payment submission, onSubmit confirms the
payment, skips the order-recorder call entirely (the order step alone sits
under the `if (user && cart)` guard), clears the cart (the store then holds
cart = null, helpers.ts line 173) and reports success: a captured payment
with no recorded order. The state is reachable: a stored
access token without a stored user yields isAuthenticated true and user null. -/
theorem claim_C10 :
    isAuthenticatedOf storeC10 = true ∧
    (∀ parse : String → Option User, storedUserOf parse storeC10 = none) ∧
    (onSubmit stateC10 demoForm (gatewayAllOk "pi_10")).outcome = Outcome.toastSuccess ∧
    (onSubmit stateC10 demoForm (gatewayAllOk "pi_10")).trace =
      [CallEvent.createIntent (intentReqOf cartC10 demoForm),
       CallEvent.confirmPayment (confirmReqOf { id := "pi_10" }),
       CallEvent.clearCart] ∧
    mentionsOrderCall (onSubmit stateC10 demoForm (gatewayAllOk "pi_10")).trace = false ∧
    (onSubmit stateC10 demoForm (gatewayAllOk "pi_10")).state.cart = none ∧
    cartIsEmpty (onSubmit stateC10 demoForm (gatewayAllOk "pi_10")).state.cart = true ∧
    (onSubmit stateC10 demoForm (gatewayAllOk "pi_10")).state.step = Step.success := by
  refine ⟨rfl, fun _ => rfl, rfl, rfl, rfl, rfl, rfl, rfl⟩

/-- Cart used for the C6 counterexample run. -/
def cartC6x : Cart := demoCart "cart-6x" "u-6x" [demoItem "cart-6x" "P2" 1 500 "Product Two" (some true)]

/-- Page state for the C6 counterexample run: user unset at submission. -/
def stateC6x : PageState :=
  { step := Step.payment, cart := some cartC6x, user := none, processing := false }

/-- C6 counterexample: a successful checkout (success outcome, cart cleared)
in which no order-recorder call is made at all, refuting the claim that every
successful checkout produces an Order with the item snapshot and intent id. -/
theorem claim_C6_counterexample :
    (onSubmit stateC6x demoForm (gatewayAllOk "pi_6x")).outcome = Outcome.toastSuccess ∧
    mentionsOrderCall (onSubmit stateC6x demoForm (gatewayAllOk "pi_6x")).trace = false ∧
    (onSubmit stateC6x demoForm (gatewayAllOk "pi_6x")).trace =
      [CallEvent.createIntent (intentReqOf cartC6x demoForm),
       CallEvent.confirmPayment (confirmReqOf { id := "pi_6x" }),
       CallEvent.clearCart] ∧
    (onSubmit stateC6x demoForm (gatewayAllOk "pi_6x")).state.cart = none ∧
    cartIsEmpty (onSubmit stateC6x demoForm (gatewayAllOk "pi_6x")).state.cart = true := by
  refine ⟨rfl, rfl, rfl, rfl, rfl⟩

/-- C1: if every payment-confirmation attempt is declined or errors (a rejected
confirmPayment promise), onSubmit on the payment step lands in the catch
block: the outcome is the failure toast, the cart state is exactly what it was
before the attempt, and the trace contains no order-recorder call. -/
theorem claim_C1 (s : PageState) (data : CheckoutFormData) (g : Gateway)
    (hstep : s.step = Step.payment)
    (hconf : ∀ r, ∃ e, g.confirmPayment r = Except.error e) :
    (onSubmit s data g).outcome = Outcome.toastPaymentFailed ∧
    (onSubmit s data g).state.cart = s.cart ∧
    mentionsOrderCall (onSubmit s data g).trace = false := by
  obtain ⟨st, cart, user, proc⟩ := s
  have hst : st = Step.payment := hstep
  subst hst
  cases cart with
  | none => exact ⟨rfl, rfl, rfl⟩
  | some c =>
    cases hci : g.createIntent (intentReqOf c data) with
    | error e =>
      refine ⟨?_, ?_, ?_⟩ <;>
        simp [onSubmit, hci, mentionsOrderCall, isOrderCall]
    | ok intent =>
      obtain ⟨e, hcp⟩ := hconf (confirmReqOf intent)
      refine ⟨?_, ?_, ?_⟩ <;>
        simp [onSubmit, hci, hcp, mentionsOrderCall, isOrderCall]

/-- Page state for the C1 witness run: payment step, cart and user present. -/
def stateC1 : PageState :=
  { step := Step.payment,
    cart := some (demoCart "cart-1" "u-1" [demoItem "cart-1" "P1" 2 1000 "Product One" (some true)]),
    user := some (demoUser "u-1"), processing := false }

/-- C1 witness: the theorem applied to a concrete declined-payment run. -/
theorem claim_C1_witness :
    (onSubmit stateC1 demoForm (gatewayDeclining "pi_1")).outcome = Outcome.toastPaymentFailed ∧
    (onSubmit stateC1 demoForm (gatewayDeclining "pi_1")).state.cart = stateC1.cart ∧
    mentionsOrderCall (onSubmit stateC1 demoForm (gatewayDeclining "pi_1")).trace = false :=
  claim_C1 stateC1 demoForm (gatewayDeclining "pi_1") rfl
    (fun _ => ⟨PaymentError.declined, rfl⟩)

/-- Cart used for the C3 run: its only line reports product_in_stock = false,
i.e. the live stock cannot cover the requested quantity. -/
def cartC3 : Cart := demoCart "cart-3" "u-3" [demoItem "cart-3" "P1" 2 1000 "Product One" (some false)]

/-- Page state for the C3 run. -/
def stateC3 : PageState :=
  { step := Step.payment, cart := some cartC3, user := some (demoUser "u-3"), processing := false }

/-- C3: no onSubmit execution ever calls the Checkout Preparer
(CartService.prepareCheckout is never invoked by the checkout flow), and on a
concrete cart whose line is out of stock the submission still creates and
confirms a payment intent and succeeds, instead of failing with
StockUnavailable before payment. -/
theorem claim_C3 :
    (∀ (s : PageState) (data : CheckoutFormData) (g : Gateway),
        mentionsPrepareCall (onSubmit s data g).trace = false) ∧
    (onSubmit stateC3 demoForm (gatewayAllOk "pi_3")).outcome = Outcome.toastSuccess ∧
    (onSubmit stateC3 demoForm (gatewayAllOk "pi_3")).trace =
      [CallEvent.createIntent (intentReqOf cartC3 demoForm),
       CallEvent.confirmPayment (confirmReqOf { id := "pi_3" }),
       CallEvent.createOrder (orderReqOf (demoUser "u-3") cartC3 { id := "pi_3" } demoForm),
       CallEvent.clearCart] := by
  refine ⟨?_, rfl, rfl⟩
  intro s data g
  obtain ⟨st, cart, user, proc⟩ := s
  by_cases hst : st = Step.shipping
  · simp [onSubmit, hst, mentionsPrepareCall]
  · cases cart with
    | none => simp [onSubmit, hst, mentionsPrepareCall]
    | some c =>
      cases hci : g.createIntent (intentReqOf c data) with
      | error e => simp [onSubmit, hst, hci, mentionsPrepareCall, isPrepareCall]
      | ok intent =>
        cases hcp : g.confirmPayment (confirmReqOf intent) with
        | error e => simp [onSubmit, hst, hci, hcp, mentionsPrepareCall, isPrepareCall]
        | ok uv =>
          cases user with
          | some u =>
            cases hco : g.createOrder (orderReqOf u c intent data) with
            | error e =>
              simp [onSubmit, hst, hci, hcp, hco, mentionsPrepareCall, isPrepareCall]
            | ok o =>
              cases hcc : g.clearCart () with
              | error e =>
                simp [onSubmit, hst, hci, hcp, hco, hcc, mentionsPrepareCall, isPrepareCall]
              | ok v =>
                simp [onSubmit, hst, hci, hcp, hco, hcc, mentionsPrepareCall, isPrepareCall]
          | none =>
            cases hcc : g.clearCart () with
            | error e =>
              simp [onSubmit, hst, hci, hcp, hcc, mentionsPrepareCall, isPrepareCall]
            | ok v =>
              simp [onSubmit, hst, hci, hcp, hcc, mentionsPrepareCall, isPrepareCall]

/-- C5: on the payment step with a cart whose stored subtotal agrees with the
sum of its lines (the cart service recomputes it after every mutation, claim
C7), the first external call of onSubmit is createPaymentIntent with amount
equal to that subtotal; and the payment service re-derives the subtotal at
call time, failing with AmountMismatch exactly when the supplied amount
differs from it and creating the intent when it matches. -/
theorem claim_C5 (s : PageState) (data : CheckoutFormData) (g : Gateway) (c : Cart)
    (hstep : s.step = Step.payment) (hcart : s.cart = some c)
    (hinv : c.subtotal = CartModel.derivedSubtotal c.items) :
    (onSubmit s data g).trace.head? = some (CallEvent.createIntent (intentReqOf c data)) ∧
    (intentReqOf c data).amount = CartModel.derivedSubtotal c.items ∧
    (∀ (items : List CartItem) (req : CreatePaymentIntentRequest) (fid : String),
        req.amount ≠ CartModel.derivedSubtotal items →
        createIntentChecked items req fid = Except.error PaymentError.amountMismatch) ∧
    (∀ fid : String,
        createIntentChecked c.items (intentReqOf c data) fid = Except.ok { id := fid }) := by
  obtain ⟨st, cart, user, proc⟩ := s
  have hst : st = Step.payment := hstep
  subst hst
  have hc : cart = some c := hcart
  subst hc
  refine ⟨?_, hinv, ?_, ?_⟩
  · cases hci : g.createIntent (intentReqOf c data) with
    | error e => simp [onSubmit, hci]
    | ok intent =>
      cases hcp : g.confirmPayment (confirmReqOf intent) with
      | error e => simp [onSubmit, hci, hcp]
      | ok uv =>
        cases user with
        | some u =>
          cases hco : g.createOrder (orderReqOf u c intent data) with
          | error e => simp [onSubmit, hci, hcp, hco]
          | ok o =>
            cases hcc : g.clearCart () with
            | error e => simp [onSubmit, hci, hcp, hco, hcc]
            | ok v => simp [onSubmit, hci, hcp, hco, hcc]
        | none =>
          cases hcc : g.clearCart () with
          | error e => simp [onSubmit, hci, hcp, hcc]
          | ok v => simp [onSubmit, hci, hcp, hcc]
  · intro items req fid hne
    simp [createIntentChecked, hne]
  · intro fid
    simp [createIntentChecked, intentReqOf, hinv]

/-- Cart used for the C5 witness run. -/
def cartC5 : Cart := demoCart "cart-5" "u-5" [demoItem "cart-5" "P1" 2 1000 "Product One" (some true)]

/-- Page state for the C5 witness run. -/
def stateC5 : PageState :=
  { step := Step.payment, cart := some cartC5, user := some (demoUser "u-5"), processing := false }

/-- A createPaymentIntent request whose amount does not match cartC5. -/
def badReqC5 : CreatePaymentIntentRequest :=
  { amount := 1999, currency := "USD", cart_id := "cart-5",
    payment_method := PaymentMethod.card,
    metadata := { shipping_address := "x", customer_email := "y" } }

/-- C5 witness: the theorem applied to a concrete run, plus its mismatch
branch evaluated at a concrete wrong amount. -/
theorem claim_C5_witness :
    (intentReqOf cartC5 demoForm).amount = CartModel.derivedSubtotal cartC5.items ∧
    createIntentChecked cartC5.items badReqC5 "pi_5"
        = Except.error PaymentError.amountMismatch ∧
    createIntentChecked cartC5.items (intentReqOf cartC5 demoForm) "pi_5"
        = Except.ok { id := "pi_5" } :=
  (fun h => ⟨h.2.1, h.2.2.1 cartC5.items badReqC5 "pi_5" (by decide), h.2.2.2 "pi_5"⟩)
    (claim_C5 stateC5 demoForm (gatewayAllOk "pi_5") cartC5 rfl rfl (by decide))

/-- C6 (amended): on the payment step with cart and user both present, every
submission that reports success made exactly the four calls
createPaymentIntent, confirmPayment, createOrder, clearCart in order, and the
Order the recorder persists from that request (recordOrder, modelled from the
spec since the order service backend is not under src/) contains the copied
snapshot of each cart line (via toOrderItem: product id, title, quantity,
unit price from the cart item, not the catalog), a total amount equal to the
cart subtotal, the id of the confirmed payment intent and the owning user;
afterwards the cart is empty (the store holds cart = null, helpers.ts 173). -/
theorem claim_C6 (s : PageState) (data : CheckoutFormData) (g : Gateway)
    (c : Cart) (u : User) (intent : PaymentIntent)
    (hstep : s.step = Step.payment) (hcart : s.cart = some c) (huser : s.user = some u)
    (hci : g.createIntent (intentReqOf c data) = Except.ok intent)
    (hout : (onSubmit s data g).outcome = Outcome.toastSuccess) :
    (onSubmit s data g).trace =
      [CallEvent.createIntent (intentReqOf c data),
       CallEvent.confirmPayment (confirmReqOf intent),
       CallEvent.createOrder (orderReqOf u c intent data),
       CallEvent.clearCart] ∧
    (∀ oid : String,
        recordOrder oid (orderReqOf u c intent data) =
          { id := oid,
            user_id := u.id,
            items := c.items.map toOrderItem,
            total_amount := c.subtotal,
            payment_intent_id := some intent.id,
            status := "created" }) ∧
    (onSubmit s data g).state.cart = none ∧
    cartIsEmpty (onSubmit s data g).state.cart = true ∧
    (onSubmit s data g).state.step = Step.success := by
  obtain ⟨st, cart, user, proc⟩ := s
  have hst : st = Step.payment := hstep
  subst hst
  have hc : cart = some c := hcart
  subst hc
  have hu : user = some u := huser
  subst hu
  cases hcp : g.confirmPayment (confirmReqOf intent) with
  | error e => simp [onSubmit, hci, hcp] at hout
  | ok uv =>
    cases hco : g.createOrder (orderReqOf u c intent data) with
    | error e => simp [onSubmit, hci, hcp, hco] at hout
    | ok o =>
      cases hcc : g.clearCart () with
      | error e => simp [onSubmit, hci, hcp, hco, hcc] at hout
      | ok v =>
        refine ⟨?_, fun oid => rfl, ?_, ?_, ?_⟩ <;>
          simp [onSubmit, hci, hcp, hco, hcc, cartIsEmpty]

/-- Cart used for the C6 witness run: P1 x 2 at 10.00, the spec scenario. -/
def cartC6 : Cart := demoCart "cart-6" "u-6" [demoItem "cart-6" "P1" 2 1000 "Product One" (some true)]

/-- Page state for the C6 witness run. -/
def stateC6 : PageState :=
  { step := Step.payment, cart := some cartC6, user := some (demoUser "u-6"), processing := false }

/-- C6 witness: the amended theorem applied to a concrete successful run, the
recorded-order clause instantiated at a concrete order id. -/
theorem claim_C6_witness :
    (onSubmit stateC6 demoForm (gatewayAllOk "pi_6")).trace =
      [CallEvent.createIntent (intentReqOf cartC6 demoForm),
       CallEvent.confirmPayment (confirmReqOf { id := "pi_6" }),
       CallEvent.createOrder (orderReqOf (demoUser "u-6") cartC6 { id := "pi_6" } demoForm),
       CallEvent.clearCart] ∧
    recordOrder "ord-6" (orderReqOf (demoUser "u-6") cartC6 { id := "pi_6" } demoForm) =
      { id := "ord-6",
        user_id := (demoUser "u-6").id,
        items := cartC6.items.map toOrderItem,
        total_amount := cartC6.subtotal,
        payment_intent_id := some (PaymentIntent.id { id := "pi_6" }),
        status := "created" } ∧
    (onSubmit stateC6 demoForm (gatewayAllOk "pi_6")).state.cart = none ∧
    cartIsEmpty (onSubmit stateC6 demoForm (gatewayAllOk "pi_6")).state.cart = true ∧
    (onSubmit stateC6 demoForm (gatewayAllOk "pi_6")).state.step = Step.success :=
  (fun h => ⟨h.1, h.2.1 "ord-6", h.2.2.1, h.2.2.2.1, h.2.2.2.2⟩)
    (claim_C6 stateC6 demoForm (gatewayAllOk "pi_6") cartC6 (demoUser "u-6") { id := "pi_6" }
      rfl rfl rfl rfl rfl)

/-- Filtering after mapping a function that preserves the predicate is
mapping after filtering. Used to locate the product line after a merge. -/
lemma filter_map_pres (p : CartItem → Bool) (u : CartItem → CartItem)
    (hp : ∀ it, p (u it) = p it) :
    ∀ l : List CartItem, (l.map u).filter p = (l.filter p).map u := by
  intro l
  induction l with
  | nil => rfl
  | cons a l ih =>
    cases h : p a with
    | false => simp [List.filter_cons, hp, h, ih]
    | true => simp [List.filter_cons, hp, h, ih]

/-- C7: after every cart mutation the subtotal equals the sum over all items
of quantity times the unit price snapshot, and the zero-item carts the cart
service produces (clearCart results and the lazily created empty cart) report
a zero subtotal; more generally any cart with zero items whose subtotal meets
the derivation reports zero. -/
theorem claim_C7 :
    (∀ (cat : CartModel.CatalogProduct) (c : Cart) (pid : String) (qty : Nat) (cr : Cart),
        CartModel.addItem cat c pid qty = Except.ok cr →
        cr.subtotal = CartModel.derivedSubtotal cr.items) ∧
    (∀ (cat : CartModel.CatalogProduct) (c : Cart) (pid : String) (qty : Nat) (cr : Cart),
        CartModel.updateItem cat c pid qty = Except.ok cr →
        cr.subtotal = CartModel.derivedSubtotal cr.items) ∧
    (∀ (c : Cart) (pid : String),
        (CartModel.removeItem c pid).subtotal =
          CartModel.derivedSubtotal (CartModel.removeItem c pid).items) ∧
    (∀ c : Cart, (CartModel.clearCart c).items = [] ∧ (CartModel.clearCart c).subtotal = 0) ∧
    (∀ cid uid : String,
        (CartModel.emptyCartFor cid uid).items = [] ∧
        (CartModel.emptyCartFor cid uid).subtotal = 0) ∧
    (∀ c : Cart, c.items = [] →
        c.subtotal = CartModel.derivedSubtotal c.items → c.subtotal = 0) := by
  refine ⟨?_, ?_, ?_, fun c => ⟨rfl, rfl⟩, fun cid uid => ⟨rfl, rfl⟩, ?_⟩
  · intro cat c pid qty cr h
    unfold CartModel.addItem at h
    split at h
    · simp at h
    · split at h
      · simp at h
      · split at h
        · injection h with h
          subst h
          rfl
        · injection h with h
          subst h
          rfl
  · intro cat c pid qty cr h
    unfold CartModel.updateItem at h
    split at h
    · injection h with h
      subst h
      rfl
    · split at h
      · simp at h
      · injection h with h
        subst h
        rfl
  · intro c pid
    rfl
  · intro c hitems hder
    rw [hder, hitems]
    rfl

/-- Catalog product fixture for the C7 witness. -/
def catW7 : CartModel.CatalogProduct :=
  { title := "Product One", price := 1000, stock := 5, is_active := true, image := none }

/-- Cart fixture for the C7 witness. -/
def cartW7 : Cart := demoCart "cart-7" "u-7" [demoItem "cart-7" "P1" 1 1000 "Product One" (some true)]

/-- Expected result of merging two more units of P1 into cartW7. -/
def cartW7after : Cart := demoCart "cart-7" "u-7" [demoItem "cart-7" "P1" 3 1000 "Product One" (some true)]

/-- C7 witness: the addItem clause applied to a concrete merge, plus the
concrete zero-item clauses. -/
theorem claim_C7_witness :
    CartModel.addItem catW7 cartW7 "P1" 2 = Except.ok cartW7after ∧
    cartW7after.subtotal = CartModel.derivedSubtotal cartW7after.items ∧
    (CartModel.clearCart cartW7after).items = [] ∧
    (CartModel.clearCart cartW7after).subtotal = 0 :=
  ⟨by rfl,
   claim_C7.1 catW7 cartW7 "P1" 2 cartW7after (by rfl),
   (claim_C7.2.2.2.1 cartW7after).1,
   (claim_C7.2.2.2.1 cartW7after).2⟩

/-- Reduction of toOption and map over a call known to have succeeded. -/
lemma toOption_map_ok {α : Type} (e : Except CartModel.CartError Cart) (y : Cart)
    (f : Cart → α) (h : e = Except.ok y) : e.toOption.map f = some (f y) := by
  rw [h]
  rfl

/-- C8: if the cart has exactly one line for product pid (the line it0), then
adding qty more of pid with any active catalog product succeeds and the
result still has exactly one line for pid, whose quantity is it0.quantity +
qty and whose price snapshot is still it0.price — untouched by the catalog
price passed in, so the merge does not refresh the snapshot. -/
theorem claim_C8 (cat : CartModel.CatalogProduct) (c : Cart) (pid : String)
    (it0 : CartItem) (qty : Nat)
    (hline : c.items.filter (CartModel.matchesProduct pid) = [it0])
    (hq : 1 ≤ qty) (hact : cat.is_active = true) :
    ((CartModel.addItem cat c pid qty).toOption.map fun cr =>
        cr.items.filter (CartModel.matchesProduct pid)) =
      some [{ it0 with quantity := it0.quantity + qty,
                       total_price := CartModel.lineTotal (it0.quantity + qty) it0.price }] := by
  have hmem : it0 ∈ c.items.filter (CartModel.matchesProduct pid) := by
    rw [hline]
    exact List.mem_singleton_self it0
  have hmem2 := List.mem_filter.mp hmem
  have hmatch : CartModel.matchesProduct pid it0 = true := hmem2.2
  have hany : c.items.any (CartModel.matchesProduct pid) = true :=
    List.any_eq_true.mpr ⟨it0, hmem2.1, hmatch⟩
  have hnl : ¬ qty < 1 := by omega
  have hp : ∀ it, CartModel.matchesProduct pid (CartModel.mergeLine pid qty it)
      = CartModel.matchesProduct pid it := by
    intro it
    unfold CartModel.mergeLine
    split <;> rfl
  have hstep : CartModel.addItem cat c pid qty =
      Except.ok (CartModel.recompute c (c.items.map (CartModel.mergeLine pid qty))) := by
    unfold CartModel.addItem
    rw [if_neg hnl, if_neg (by simp [hact]), if_pos hany]
  rw [toOption_map_ok _ _ _ hstep]
  have hitems : (CartModel.recompute c (c.items.map (CartModel.mergeLine pid qty))).items
      = c.items.map (CartModel.mergeLine pid qty) := rfl
  rw [hitems, filter_map_pres _ _ hp, hline]
  simp [CartModel.mergeLine, hmatch]

/-- Catalog product fixture for the C8 witness: note its price (2500) differs
from the cart line snapshot (1000), and the snapshot survives the merge. -/
def catW8 : CartModel.CatalogProduct :=
  { title := "Product A", price := 2500, stock := 9, is_active := true, image := none }

/-- The single cart line of the C8 witness cart. -/
def itW8 : CartItem := demoItem "cart-8" "A" 1 1000 "Product A" (some true)

/-- Cart fixture for the C8 witness: one line for product A, quantity 1. -/
def cartW8 : Cart := demoCart "cart-8" "u-8" [itW8]

/-- C8 witness: the theorem applied to the concrete cart, realizing the spec
scenario of adding the same product again: one merged line of quantity 2 with
the original snapshot. -/
theorem claim_C8_witness :
    ((CartModel.addItem catW8 cartW8 "A" 1).toOption.map fun cr =>
        cr.items.filter (CartModel.matchesProduct "A")) =
      some [{ itW8 with quantity := itW8.quantity + 1,
                        total_price := CartModel.lineTotal (itW8.quantity + 1) itW8.price }] :=
  claim_C8 catW8 cartW8 "A" itW8 1 (by decide) (by decide) (by decide)

end DepiCheckout
